import Mathlib

/-
Verification of the knative-eventing delivery core (pkg/kncloudevents):
a shallow embedding, in Lean 4, of the HTTP client cache
(pkg/kncloudevents/http_client_new.go), of the two dispatcher variants
(the 2023 event dispatcher and the 2020 message sender, both named
`send`/`executeRequest` in the Go sources), and of the retry backoff
logic (`generateBackoffFn`, `parseRetryAfterDuration`).

Conventions of the embedding:
  * Go `time.Duration` (an int64 of nanoseconds) is modelled as `Int`;
    overflow is irrelevant to the properties proved here.
  * Go `http.Header` (a map from canonical keys to value slices that the
    sources manipulate only through `Set`, `Get`, `Clone` and whole-key
    assignment) is modelled as an association list with exact string keys.
  * Effects of the outside world (the HTTP exchange itself, x509
    certificate parsing, JSON unmarshalling, wall-clock time) are inputs:
    each dispatch hop consumes a `RequestOutcome` describing how the
    exchange went, and library behaviour is passed in as functions.
  * The dispatch pipeline additionally returns a trace of the
    `executeRequest` invocations it performed, recording for each hop the
    target, the message, the headers, the retry configuration and the
    transformers that the Go code hands to `executeRequest`.
-/

set_option linter.unusedVariables false

namespace KnEventing

/-- Go `time.Duration`: an int64 count of nanoseconds. -/
abbrev Duration := Int

/-- One nanosecond-count second, the value of Go `time.Second`. -/
def timeSecond : Duration := 1000000000

/-- Model of `knative.dev/pkg/apis.URL` restricted to the components the
delivery core reads or writes (scheme, host, path, query). -/
structure URL where
  scheme : String
  host : String
  path : String
  rawQuery : String
deriving DecidableEq

/-- The zero value `apis.URL{}`. -/
def emptyURL : URL := { scheme := "", host := "", path := "", rawQuery := "" }

/-- Rendering of a URL as its string form, the pool key
(`addressable.URL.String()`). -/
def URL.string (u : URL) : String :=
  u.scheme ++ "://" ++ u.host ++ u.path ++
    (if u.rawQuery = "" then "" else "?" ++ u.rawQuery)

/-- `apis.URL.String()` on a possibly-nil pointer: nil renders as `""`. -/
def urlString : Option URL → String
  | none => ""
  | some u => u.string

/-- Model of `duckv1.Addressable`: a destination identity, a URL pointer
plus optional CA certificate material (the `Audience` field is unused by
the delivery core and omitted). -/
structure Addressable where
  url : Option URL
  caCerts : Option String
deriving DecidableEq

/-- The client cache key of an addressable, `addressable.URL.String()`. -/
def Addressable.key (a : Addressable) : String :=
  urlString a.url

/-! ### Headers -/

/-- Association-list model of `http.Header`; the sources touch headers
only via `Set`, `Get`, `Clone` and per-key assignment, all of which are
single-valued, so one value per key suffices. -/
abbrev Header := List (String × String)

/-- `http.Header.Get`: the value stored for a key, `""` when absent. -/
def hGet (h : Header) (k : String) : String :=
  match h.lookup k with
  | some v => v
  | none => ""

/-- `http.Header.Set`: replace any value stored for the key. -/
def hSet (h : Header) (k v : String) : Header :=
  (k, v) :: h.filter (fun p => p.1 != k)

theorem lookup_filter_ne {β : Type} (l : List (String × β)) (k k' : String)
    (hne : k' ≠ k) :
    (l.filter (fun p => p.1 != k)).lookup k' = l.lookup k' := by
  induction l with
  | nil => rfl
  | cons p t ih =>
    obtain ⟨pk, pv⟩ := p
    by_cases hp : pk = k
    · have hk' : (k' == pk) = false := by simp [hp, hne]
      have hkk : (k' == k) = false := by simp [hne]
      simp only [List.filter, hp, bne_self_eq_false, List.lookup, hk', hkk, ih]
    · have hf : (pk != k) = true := by simp [hp]
      simp only [List.filter, hf, List.lookup, ih]

theorem hGet_hSet_self (h : Header) (k v : String) :
    hGet (hSet h k v) k = v := by
  simp [hGet, hSet, List.lookup]

theorem hGet_hSet_ne (h : Header) (k k' v : String) (hne : k' ≠ k) :
    hGet (hSet h k v) k' = hGet h k' := by
  have hk' : (k' == k) = false := by simp [hne]
  simp [hGet, hSet, List.lookup, hk', lookup_filter_ne h k k' hne]

/-! ### Connection pool manager (pkg/kncloudevents/http_client_new.go) -/

/-- Model of `ConnectionArgs`: process-wide transport tuning. -/
structure ConnectionArgs where
  maxIdleConns : Int
  maxIdleConnsPerHost : Int
deriving DecidableEq

/-- The transport fields the pool manager configures: the certificate
pool (`none` = system roots only, `some pem` = system roots with the PEM
certs appended) and the idle-connection tuning. -/
structure Transport where
  tlsRootCAs : Option String
  maxIdleConns : Int
  maxIdleConnsPerHost : Int
deriving DecidableEq

/-- `nethttp.DefaultTransport.(*nethttp.Transport).Clone()`: system trust
only, `MaxIdleConns: 100`, `MaxIdleConnsPerHost` unset. -/
def defaultTransport : Transport :=
  { tlsRootCAs := none, maxIdleConns := 100, maxIdleConnsPerHost := 0 }

/-- `(*ConnectionArgs).configureTransport`: a nil receiver leaves the
transport untouched, otherwise both tuning fields are copied over. -/
def configureTransport : Option ConnectionArgs → Transport → Transport
  | none, t => t
  | some ca, t =>
    { t with maxIdleConns := ca.maxIdleConns,
             maxIdleConnsPerHost := ca.maxIdleConnsPerHost }

/-- A pooled client: the configured transport wrapped in the ochttp
tracing layer. -/
structure HTTPClient where
  transport : Transport
  tracingWrapped : Bool
deriving DecidableEq

/-- `createNewClient`. External x509 behaviour is passed in:
`sysCertPoolOk` is whether `x509.SystemCertPool()` succeeds and
`appendCertsFromPEM` is whether `certPool.AppendCertsFromPEM` accepts the
given PEM material. -/
def createNewClient (sysCertPoolOk : Bool) (appendCertsFromPEM : String → Bool)
    (connArgs : Option ConnectionArgs) (addressable : Addressable) :
    Except String HTTPClient := do
  let base := defaultTransport
  let base ←
    match addressable.caCerts with
    | some certs =>
      if certs != "" then
        if !sysCertPoolOk then
          Except.error "could not get system cert pool"
        else if !(appendCertsFromPEM certs) then
          Except.error "failed to append CA certs from PEM to cert pool"
        else
          pure { base with tlsRootCAs := some certs }
      else
        pure base
    | none => pure base
  pure { transport := configureTransport connArgs base, tracingWrapped := true }

/-- The package-level mutable state of the pool manager: the `clients`
map keyed by URL string and the current `connectionArgs`. -/
structure ClientsState where
  clients : List (String × HTTPClient)
  connectionArgs : Option ConnectionArgs

/-- `getClientForAddressable`: look the URL-string key up in the cache,
creating and caching a client on a miss. Returns the result together
with the updated package state. -/
def getClientForAddressable (sysCertPoolOk : Bool)
    (appendCertsFromPEM : String → Bool) (s : ClientsState) (a : Addressable) :
    Except String HTTPClient × ClientsState :=
  let clientKey := a.key
  match s.clients.lookup clientKey with
  | some client => (.ok client, s)
  | none =>
    match createNewClient sysCertPoolOk appendCertsFromPEM s.connectionArgs a with
    | .error e => (.error ("failed to create new client for addressable: " ++ e), s)
    | .ok newClient =>
      (.ok newClient, { s with clients := (clientKey, newClient) :: s.clients })

/-- `AddOrUpdateAddressableHandler`: eagerly (re)create the client for
the addressable's key. On a creation error the handler only prints the
failure and leaves the cache as it was. -/
def AddOrUpdateAddressableHandler (sysCertPoolOk : Bool)
    (appendCertsFromPEM : String → Bool) (s : ClientsState) (a : Addressable) :
    ClientsState :=
  let clientKey := a.key
  match createNewClient sysCertPoolOk appendCertsFromPEM s.connectionArgs a with
  | .error _ => s
  | .ok client =>
    { s with clients := (clientKey, client) :: s.clients.filter (fun p => p.1 != clientKey) }

/-- `DeleteAddressableHandler`: drop the cache entry for the key. -/
def DeleteAddressableHandler (s : ClientsState) (a : Addressable) : ClientsState :=
  { s with clients := s.clients.filter (fun p => p.1 != a.key) }

/-- The identical-tuning test of `ConfigureConnectionArgs`: both the
current and the new args are non-nil and field-wise equal. -/
def sameConnectionArgs : Option ConnectionArgs → Option ConnectionArgs → Bool
  | some cur, some nw =>
    nw.maxIdleConns == cur.maxIdleConns &&
      nw.maxIdleConnsPerHost == cur.maxIdleConnsPerHost
  | _, _ => false

/-- `ConfigureConnectionArgs`: a no-op when the tuning is unchanged,
otherwise closes idle connections, clears the whole client cache and
installs the new args. (The legacy-client side effect is out of scope.) -/
def ConfigureConnectionArgs (s : ClientsState) (ca : Option ConnectionArgs) :
    ClientsState :=
  if sameConnectionArgs s.connectionArgs ca then s
  else { clients := [], connectionArgs := ca }

/-! ### URL sanitization (shared by both dispatcher variants) -/

/-- `sanitizeURL`: URLs with an `http`/`https` scheme pass through, any
other non-nil URL is rewritten to `http://<host>/`. -/
def sanitizeURL : Option URL → Option URL
  | none => none
  | some url =>
    if url.scheme = "http" ∨ url.scheme = "https" then some url
    else some { scheme := "http", host := url.host, path := "/", rawQuery := "" }

/-- `sanitizeAddressable` on a non-nil addressable. -/
def sanitizeAddressable (a : Addressable) : Addressable :=
  { a with url := sanitizeURL a.url }

/-- `sanitizeAddressable` including the nil case. -/
def sanitizeAddressableOpt : Option Addressable → Option Addressable
  | none => none
  | some a => some (sanitizeAddressable a)

/-! ### Messages, responses and dispatch records -/

/-- A `binding.Message` as the dispatcher distinguishes them: either the
caller's original message or a message constructed from an HTTP response
(`cehttp.NewMessage(response.Header, body)`). -/
inductive Msg
  | original
  | fromResponse (headers : Header) (body : String)
deriving DecidableEq

/-- `binding.Encoding` as far as the dispatcher consumes it. -/
inductive Encoding
  | binary
  | structured
  | unknown
deriving DecidableEq

/-- Model of `cehttp.Message.ReadEncoding` on a message built with
`cehttp.NewMessage(headers, body)`: a CloudEvents spec-version header
means binary encoding, a CloudEvents content type means structured
encoding, anything else is unknown. -/
def readEncoding (h : Header) : Encoding :=
  if hGet h "Ce-Specversion" ≠ "" then .binary
  else if hGet h "Content-Type" = "application/cloudevents+json" then .structured
  else .unknown

/-- `NoDuration` signals that the dispatch step has not started. -/
def NoDuration : Int := -1

/-- `NoResponse` signals that no response was received. -/
def NoResponse : Int := -1

/-- `http.StatusInternalServerError`. -/
def StatusInternalServerError : Int := 500

/-- `isFailure`: true when the status code is outside [200, 300). -/
def isFailure (statusCode : Int) : Bool :=
  statusCode < 200 || statusCode >= 300

/-- `DispatchInfo`: the result record of one dispatch attempt. The
response body is `Option String` so a nil Go slice and a captured body
stay distinguishable. -/
structure DispatchInfo where
  duration : Duration
  responseCode : Int
  responseHeader : Header
  responseBody : Option String
deriving DecidableEq

/-- The zero value `DispatchInfo{}`. -/
def zeroDispatchInfo : DispatchInfo :=
  { duration := 0, responseCode := 0, responseHeader := [], responseBody := none }

/-- The relevant content of a `*nethttp.Response`: status code, status
text, headers, the bytes the body read produced and whether that read
failed with a non-EOF error. -/
structure HTTPResponse where
  statusCode : Int
  status : String
  headers : Header
  body : String
  bodyReadErr : Bool
deriving DecidableEq

/-- How one `executeRequest` exchange went, as decided by the outside
world: the request could not be built or written, the client for the
target could not be created, the send (after retries) failed, or a
response arrived after the given elapsed time. -/
inductive RequestOutcome
  | buildError (e : String)
  | clientError (e : String)
  | sendError (e : String) (elapsed : Duration)
  | response (r : HTTPResponse) (elapsed : Duration)
deriving DecidableEq

/-- Whether an outcome makes `executeRequest` return an error. -/
def RequestOutcome.fails : RequestOutcome → Bool
  | .buildError _ => true
  | .clientError _ => true
  | .sendError _ _ => true
  | .response r _ => isFailure r.statusCode

/-- Modelled from the spec: the `RetryConfig` type (defined in the
repository's retries file, which is not among the sources here) —
"maximum retry count, a pluggable predicate deciding whether a given
response/error is retryable, a backoff function mapping attempt number
to a wait duration, an optional per-request timeout, and an optional cap
on how much a server-directed delay may be honored". Field names follow
the uses in the sources (`RetryMax`, `CheckRetry`, `Backoff`,
`RequestTimeout`, `RetryAfterMaxDuration`). -/
structure RetryConfig where
  retryMax : Int
  checkRetry : Option HTTPResponse → Option String → Bool
  backoff : Int → Option HTTPResponse → Duration
  requestTimeout : Duration
  retryAfterMaxDuration : Option Duration

/-- `broker.ErrExtensionInfo`: the nested error-context payload the
broker-filter component puts in its failure response body. -/
structure ErrExtensionInfo where
  errDestination : Option URL
  errResponseBody : String

/-- External library behaviour the dispatcher depends on: the
broker-filter service hostname (`network.GetServiceHostname` +
`system.Namespace()`), JSON unmarshalling of `ErrExtensionInfo`
(`none` = unmarshal error) and `utils.PassThroughHeaders`. -/
structure DispatchEnv where
  brokerFilterHost : String
  unmarshalErrExtensionInfo : String → Option ErrExtensionInfo
  passThroughHeaders : Header → Header

/-! ### Base64 encoding (`encoding/base64` StdEncoding) -/

/-- The standard base64 alphabet. -/
def base64Alphabet : List Char :=
  "ABCDEFGHIJKLMNOPQRSTUVWXYZabcdefghijklmnopqrstuvwxyz0123456789+/".toList

/-- One base64 digit. -/
def b64Char (n : Nat) : Char := base64Alphabet.getD n 'A'

/-- Standard base64 encoding with padding over byte values. -/
def base64EncodeBytes : List Nat → List Char
  | [] => []
  | [a] => [b64Char (a / 4), b64Char (a % 4 * 16), '=', '=']
  | [a, b] => [b64Char (a / 4), b64Char (a % 4 * 16 + b / 16), b64Char (b % 16 * 4), '=']
  | a :: b :: c :: rest =>
    b64Char (a / 4) :: b64Char (a % 4 * 16 + b / 16) ::
      b64Char (b % 16 * 4 + c / 64) :: b64Char (c % 64) :: base64EncodeBytes rest

/-- `base64.StdEncoding` applied to the UTF-8 bytes of a string. -/
def base64Encode (s : String) : String :=
  String.mk (base64EncodeBytes (s.toUTF8.toList.map (fun b => b.toNat)))

/-- `base64.StdEncoding.EncodedLen`. -/
def base64EncodedLen (n : Nat) : Nat := (n + 2) / 3 * 4

/-- `attributes.KnativeErrorDataExtensionMaxLength` (the constant lives
in pkg/channel/attributes, outside these sources; its value is 1024). -/
def KnativeErrorDataExtensionMaxLength : Nat := 1024

/-- The arguments handed to `attributes.KnativeErrorTransformers`: the
failing destination URL, the HTTP status code and the truncated
base64-encoded failure body that become the knative error extension
attributes. -/
structure KnativeErrorTransformers where
  destination : URL
  code : Int
  data : String
deriving DecidableEq

/-- A Go runtime panic: the function it occurs in returns no value. -/
structure GoPanic where
  msg : String
deriving DecidableEq

/-- The panic raised by calling `Error()` on a nil error interface. Both
`executeRequest` variants format `err.Error()` in their body-read-error
branches, where `err` is the nil error left over from the successful
send, so a non-EOF body read error crashes the dispatcher. -/
def nilErrorPanic : GoPanic :=
  { msg := "runtime error: invalid memory address or nil pointer dereference" }

/-- The panic raised when `base64.StdEncoding.Encode` writes past the
end of a destination buffer shorter than `EncodedLen(len(src))`. -/
def encodeRangePanic : GoPanic :=
  { msg := "runtime error: index out of range" }

/-- `dispatchExecutionInfoTransformers`: build the dead-letter
transformers from the failing destination and the failure's
`DispatchInfo`. A nil result models the Go function returning nil
`binding.Transformers` (when the broker-filter payload fails to
unmarshal). The Go code caps `encodedLen` at the extension maximum and
allocates `encodedBuf` with that length, but
`base64.StdEncoding.Encode(encodedBuf, httpResponseBody)` writes
`EncodedLen(bodyLen)` bytes unconditionally: a failure body over 768
bytes overruns the capped buffer and panics before any transformers are
produced. -/
def dispatchExecutionInfoTransformers (env : DispatchEnv)
    (destination : Option URL) (info : DispatchInfo) :
    Except GoPanic (Option KnativeErrorTransformers) :=
  let dest := destination.getD emptyURL
  let step : Option (Option URL × String) :=
    if dest.host = env.brokerFilterHost then
      match env.unmarshalErrExtensionInfo (info.responseBody.getD "") with
      | none => none
      | some ext => some (ext.errDestination, ext.errResponseBody)
    else
      some (some dest, info.responseBody.getD "")
  match step with
  | none => .ok none
  | some (destination, httpResponseBody) =>
    let destination := sanitizeURL destination
    let bodyLen := httpResponseBody.utf8ByteSize
    let encodedLen :=
      if base64EncodedLen bodyLen > KnativeErrorDataExtensionMaxLength then
        KnativeErrorDataExtensionMaxLength
      else base64EncodedLen bodyLen
    if base64EncodedLen bodyLen > encodedLen then .error encodeRangePanic
    else
      .ok (some { destination := destination.getD emptyURL,
                  code := info.responseCode,
                  data := (base64Encode httpResponseBody).take encodedLen })

/-! ### executeRequest, both variants

The request construction, client lookup and transmission are summarized
by the `RequestOutcome` input; the target, message, headers, retry
configuration and transformers that the Go `executeRequest` receives do
not change the modelled result and are instead recorded by the dispatch
pipeline in its trace. -/

/-- What one `executeRequest` call returns: the response message (nil
when there is none or it was discarded), the `DispatchInfo` and the
error. -/
structure ExecResult where
  responseMessage : Option Msg
  info : DispatchInfo
  err : Option String
deriving DecidableEq

/-- The initial `DispatchInfo` of `executeRequest`: sentinel duration and
status, empty headers. -/
def initialDispatchInfo : DispatchInfo :=
  { duration := NoDuration, responseCode := NoResponse,
    responseHeader := [], responseBody := none }

/-- `executeRequest` of the 2020 message sender (part_005). On a send
error the elapsed time and status 500 with a synthesized body are
recorded; on a response the elapsed time, status and pass-through
headers are recorded, a non-2xx response captures the body and fails,
and a 2xx response of unknown CloudEvents encoding is discarded. A
non-EOF body read error panics in either status branch: the read-error
format strings call `err.Error()` on the nil post-send error
(part_005 lines 255 and 267). -/
def executeRequest2020 (env : DispatchEnv) (outcome : RequestOutcome) :
    Except GoPanic ExecResult :=
  let dispatchInfo := initialDispatchInfo
  match outcome with
  | .buildError e => .ok ⟨none, dispatchInfo, some e⟩
  | .clientError e =>
    .ok ⟨none, dispatchInfo,
      some ("failed to get http client for addressable: " ++ e)⟩
  | .sendError e elapsed =>
    .ok ⟨none,
      { dispatchInfo with
          duration := elapsed,
          responseCode := StatusInternalServerError,
          responseBody := some ("dispatch error: " ++ e) },
      some e⟩
  | .response r elapsed =>
    let dispatchInfo :=
      { dispatchInfo with
          duration := elapsed,
          responseCode := r.statusCode,
          responseHeader := env.passThroughHeaders r.headers }
    if isFailure r.statusCode then
      if r.bodyReadErr then .error nilErrorPanic
      else
        .ok ⟨none, { dispatchInfo with responseBody := some r.body },
          some ("unexpected HTTP response, expected 2xx, got " ++
            toString r.statusCode)⟩
    else
      if r.bodyReadErr then .error nilErrorPanic
      else
        if readEncoding r.headers = .unknown then
          .ok ⟨none, dispatchInfo, none⟩
        else
          .ok ⟨some (Msg.fromResponse r.headers r.body), dispatchInfo, none⟩

/-- `executeRequest` of the 2023 event dispatcher (part_003). It differs
from the 2020 variant in two ways: client creation happens inside
`SendWithRetries`, so its failure surfaces as a send error; and the
elapsed time is written into the `DispatchInfo` only on the send-error
path, so a delivered response leaves the duration at the sentinel. The
body-read-error branches panic exactly as in the 2020 variant
(part_003 lines 262 and 274 call `err.Error()` on the nil post-send
error). -/
def executeRequest2023 (env : DispatchEnv) (outcome : RequestOutcome) :
    Except GoPanic ExecResult :=
  let dispatchInfo := initialDispatchInfo
  match outcome with
  | .buildError e => .ok ⟨none, dispatchInfo, some e⟩
  | .clientError e =>
    .ok ⟨none,
      { dispatchInfo with
          duration := 0,
          responseCode := StatusInternalServerError,
          responseBody := some ("dispatch error: " ++ e) },
      some e⟩
  | .sendError e elapsed =>
    .ok ⟨none,
      { dispatchInfo with
          duration := elapsed,
          responseCode := StatusInternalServerError,
          responseBody := some ("dispatch error: " ++ e) },
      some e⟩
  | .response r _elapsed =>
    let dispatchInfo :=
      { dispatchInfo with
          responseCode := r.statusCode,
          responseHeader := env.passThroughHeaders r.headers }
    if isFailure r.statusCode then
      if r.bodyReadErr then .error nilErrorPanic
      else
        .ok ⟨none, { dispatchInfo with responseBody := some r.body },
          some ("unexpected HTTP response, expected 2xx, got " ++
            toString r.statusCode)⟩
    else
      if r.bodyReadErr then .error nilErrorPanic
      else
        if readEncoding r.headers = .unknown then
          .ok ⟨none, dispatchInfo, none⟩
        else
          .ok ⟨some (Msg.fromResponse r.headers r.body), dispatchInfo, none⟩

/-! ### The dispatch pipeline, both variants -/

/-- One recorded `executeRequest` invocation: the arguments the pipeline
passed. `transformers` is the `binding.Transformers` value handed over
(always nil except for dead-letter hops). -/
structure HopCall where
  target : Addressable
  message : Msg
  headers : Header
  retryConfig : Option RetryConfig
  transformers : Option KnativeErrorTransformers

/-- How a pipeline run ends: Go either returns a `(*DispatchInfo,
error)` pair, or panics and returns nothing. `info` is an `Option`
because the 2023 variant can return a nil `*DispatchInfo`. -/
inductive Delivered
  | panicked (p : GoPanic)
  | returned (info : Option DispatchInfo) (err : Option String)
deriving DecidableEq

/-- What `send` produces: how the run ended, plus the trace of the
`executeRequest` invocations that happened before it ended (they are
real sends even when a later step panics). -/
structure SendResult where
  outcome : Delivered
  trace : List HopCall

/-- The partial result of a pipeline stage. -/
structure PhaseResult where
  outcome : Delivered
  hops : List HopCall

/-- `senderConfig` after the options were applied. -/
structure SenderConfig where
  reply : Option Addressable
  deadLetterSink : Option Addressable
  additionalHeaders : Header
  retryConfig : Option RetryConfig

/-- `eventingapis.KnNamespaceHeader` (constant from the eventing apis
package, outside these sources). -/
def KnNamespaceHeader : String := "Kn-Namespace"

/-- The combined error of a destination failure followed by a
dead-letter failure. -/
def destDLSJointError (destURL dlsURL : Option URL) (e dlErr : String) : String :=
  "unable to complete request to either " ++ urlString destURL ++ " (" ++ e ++
    ") or " ++ urlString dlsURL ++ " (" ++ dlErr ++ ")"

/-- The combined error of a reply failure followed by a dead-letter
failure. -/
def replyDLSJointError (replyURL dlsURL : Option URL) (e dlErr : String) : String :=
  "failed to forward reply to " ++ urlString replyURL ++ " (" ++ e ++
    ") and failed to send it to the dead letter sink " ++ urlString dlsURL ++
    " (" ++ dlErr ++ ")"

/-- The reply stage shared by both `send` variants: propagate the
namespace header, stop when there is no response message or no reply
target, otherwise forward the response message to the reply target,
falling back to the dead-letter sink (with the original message and
transformers derived from the reply failure) when the forward fails.
`exec` is the `executeRequest` of the variant and `net k` the outcome of
the stage's k-th exchange. -/
def replyStage (exec : RequestOutcome → Except GoPanic ExecResult)
    (env : DispatchEnv) (net : Nat → RequestOutcome) (k : Nat) (message : Msg)
    (reply deadLetterSink : Option Addressable) (config : SenderConfig)
    (info0 : Option DispatchInfo) (responseMessage : Option Msg)
    (responseAdditionalHeaders : Header) : PhaseResult :=
  let responseAdditionalHeaders :=
    if hGet config.additionalHeaders KnNamespaceHeader ≠ "" then
      hSet responseAdditionalHeaders KnNamespaceHeader
        (hGet config.additionalHeaders KnNamespaceHeader)
    else responseAdditionalHeaders
  match responseMessage with
  | none => ⟨.returned info0 none, []⟩
  | some respMsg =>
    match reply with
    | none => ⟨.returned info0 none, []⟩
    | some rp =>
      let hop2 : HopCall :=
        ⟨rp, respMsg, responseAdditionalHeaders, config.retryConfig, none⟩
      match exec (net k) with
      | .error p => ⟨.panicked p, [hop2]⟩
      | .ok r2 =>
        match r2.err with
        | none => ⟨.returned (some r2.info) none, [hop2]⟩
        | some err2 =>
          match deadLetterSink with
          | none =>
            ⟨.returned (some r2.info)
              (some ("failed to forward reply to " ++ urlString rp.url ++ ": " ++
                err2)),
              [hop2]⟩
          | some dls =>
            match dispatchExecutionInfoTransformers env rp.url r2.info with
            | .error p => ⟨.panicked p, [hop2]⟩
            | .ok tf =>
              let hop3 : HopCall :=
                ⟨dls, message, responseAdditionalHeaders, config.retryConfig, tf⟩
              match exec (net (k + 1)) with
              | .error p => ⟨.panicked p, [hop2, hop3]⟩
              | .ok r3 =>
                match r3.err with
                | some dlErr =>
                  ⟨.returned (some r3.info)
                    (some (replyDLSJointError rp.url dls.url err2 dlErr)),
                    [hop2, hop3]⟩
                | none => ⟨.returned (some r3.info) none, [hop2, hop3]⟩

/-- `send` of the 2020 message sender (part_005): a nil destination URL
fails immediately; otherwise the addressables are sanitized, the
destination is sent to with a forced `Prefer: reply` header, a failure
falls back to the dead-letter sink with the original message and the
transformers built from the destination failure, and a success enters
the reply stage. -/
def send2020 (env : DispatchEnv) (net : Nat → RequestOutcome) (message : Msg)
    (destination : Addressable) (config : SenderConfig) : SendResult :=
  match destination.url with
  | none =>
    { outcome := .returned (some zeroDispatchInfo)
        (some "can not dispatch message to nil destination.URL"),
      trace := [] }
  | some _ =>
    let destination := sanitizeAddressable destination
    let reply := sanitizeAddressableOpt config.reply
    let deadLetterSink := sanitizeAddressableOpt config.deadLetterSink
    let additionalHeadersForDestination := hSet config.additionalHeaders "Prefer" "reply"
    let hop0 : HopCall :=
      ⟨destination, message, additionalHeadersForDestination, config.retryConfig, none⟩
    match executeRequest2020 env (net 0) with
    | .error p => { outcome := .panicked p, trace := [hop0] }
    | .ok r0 =>
      match r0.err with
      | some err =>
        match deadLetterSink with
        | some dls =>
          match dispatchExecutionInfoTransformers env destination.url r0.info with
          | .error p => { outcome := .panicked p, trace := [hop0] }
          | .ok tf =>
            let hop1 : HopCall :=
              ⟨dls, message, config.additionalHeaders, config.retryConfig, tf⟩
            match executeRequest2020 env (net 1) with
            | .error p => { outcome := .panicked p, trace := [hop0, hop1] }
            | .ok r1 =>
              match r1.err with
              | some dlErr =>
                { outcome := .returned (some r1.info)
                    (some (destDLSJointError destination.url dls.url err dlErr)),
                  trace := [hop0, hop1] }
              | none =>
                { outcome := .returned (some r1.info) none, trace := [hop0, hop1] }
        | none =>
          { outcome := .returned (some r0.info)
              (some ("unable to complete request to " ++
                urlString destination.url ++ ": " ++ err)),
            trace := [hop0] }
      | none =>
        let tail := replyStage (executeRequest2020 env) env net 1 message reply
          deadLetterSink config (some r0.info) r0.responseMessage
          r0.info.responseHeader
        { outcome := tail.outcome, trace := hop0 :: tail.hops }

/-- `send` of the 2023 event dispatcher (part_003): no nil-URL check —
with a destination URL the flow matches the 2020 variant, without one
the original message and the caller's headers feed straight into the
reply stage (and the returned `*DispatchInfo` stays nil). -/
def send2023 (env : DispatchEnv) (net : Nat → RequestOutcome) (message : Msg)
    (destination : Addressable) (config : SenderConfig) : SendResult :=
  let destination := sanitizeAddressable destination
  let reply := sanitizeAddressableOpt config.reply
  let deadLetterSink := sanitizeAddressableOpt config.deadLetterSink
  match destination.url with
  | some _ =>
    let additionalHeadersForDestination := hSet config.additionalHeaders "Prefer" "reply"
    let hop0 : HopCall :=
      ⟨destination, message, additionalHeadersForDestination, config.retryConfig, none⟩
    match executeRequest2023 env (net 0) with
    | .error p => { outcome := .panicked p, trace := [hop0] }
    | .ok r0 =>
      match r0.err with
      | some err =>
        match deadLetterSink with
        | some dls =>
          match dispatchExecutionInfoTransformers env destination.url r0.info with
          | .error p => { outcome := .panicked p, trace := [hop0] }
          | .ok tf =>
            let hop1 : HopCall :=
              ⟨dls, message, config.additionalHeaders, config.retryConfig, tf⟩
            match executeRequest2023 env (net 1) with
            | .error p => { outcome := .panicked p, trace := [hop0, hop1] }
            | .ok r1 =>
              match r1.err with
              | some dlErr =>
                { outcome := .returned (some r1.info)
                    (some (destDLSJointError destination.url dls.url err dlErr)),
                  trace := [hop0, hop1] }
              | none =>
                { outcome := .returned (some r1.info) none, trace := [hop0, hop1] }
        | none =>
          { outcome := .returned (some r0.info)
              (some ("unable to complete request to " ++
                urlString destination.url ++ ": " ++ err)),
            trace := [hop0] }
      | none =>
        let tail := replyStage (executeRequest2023 env) env net 1 message reply
          deadLetterSink config (some r0.info) r0.responseMessage
          r0.info.responseHeader
        { outcome := tail.outcome, trace := hop0 :: tail.hops }
  | none =>
    let tail := replyStage (executeRequest2023 env) env net 0 message reply
      deadLetterSink config none (some message) config.additionalHeaders
    { outcome := tail.outcome, trace := tail.hops }

/-! ### Retry backoff (generateBackoffFn, parseRetryAfterDuration) -/

/-- `strconv.ParseInt(s, 10, 64)`: optional sign, decimal digits,
64-bit range. -/
def parseInt64 (s : String) : Option Int :=
  let cs := s.toList
  let signed : Bool × List Char :=
    match cs with
    | '+' :: rest => (false, rest)
    | '-' :: rest => (true, rest)
    | _ => (false, cs)
  match signed with
  | (neg, ds) =>
    if ds = [] ∨ ¬ ds.all (fun c => c.isDigit) then none
    else
      let n : Nat := ds.foldl (fun a c => a * 10 + (c.toNat - 48)) 0
      let v : Int := if neg then -(n : Int) else (n : Int)
      if -(2 ^ 63) ≤ v ∧ v ≤ 2 ^ 63 - 1 then some v else none

/-- The wall clock as the Retry-After parser sees it:
`timeUntilHTTPDate s` is `time.Until(t)` when `nethttp.ParseTime s`
yields `t`, and `none` when the HTTP-date fails to parse. -/
structure Clock where
  timeUntilHTTPDate : String → Option Duration

/-- `RetryAfterHeader`. -/
def RetryAfterHeader : String := "Retry-After"

/-- Two's-complement truncation into the int64 range: Go `time.Duration`
arithmetic wraps. -/
def wrapInt64 (n : Int) : Int := (n + 2 ^ 63) % 2 ^ 64 - 2 ^ 63

/-- `parseRetryAfterDuration`: the delay requested by a `Retry-After`
header — integer seconds or an HTTP-date, 0 when absent or invalid.
`time.Duration(retryAfterInt) * time.Second` is wrapping int64
multiplication, so a huge seconds value can wrap negative. -/
def parseRetryAfterDuration (clock : Clock) (resp : Option HTTPResponse) : Duration :=
  match resp with
  | none => 0
  | some r =>
    let retryAfterString := hGet r.headers RetryAfterHeader
    if retryAfterString.length ≤ 0 then 0
    else
      match parseInt64 retryAfterString with
      | some retryAfterInt => wrapInt64 (retryAfterInt * timeSecond)
      | none =>
        match clock.timeUntilHTTPDate retryAfterString with
        | none => 0
        | some d => d

/-- The `retryAfterDuration` local of `generateBackoffFn`: only computed
when a Retry-After ceiling is configured and the response is 429/503,
and clamped to the ceiling when the ceiling is smaller. (The source's
second nil-check of `RetryAfterMaxDuration` inside the branch is
subsumed by the outer one.) -/
def retryAfterDelay (clock : Clock) (config : RetryConfig)
    (resp : Option HTTPResponse) : Duration :=
  match config.retryAfterMaxDuration with
  | none => 0
  | some retryAfterMax =>
    match resp with
    | none => 0
    | some r =>
      if r.statusCode = 429 ∨ r.statusCode = 503 then
        let d := parseRetryAfterDuration clock (some r)
        if retryAfterMax < d then retryAfterMax else d
      else 0

/-- `generateBackoffFn`: a `retryablehttp.Backoff` returning the larger
of the configured backoff for the attempt and the (optional, clamped)
Retry-After delay. -/
def generateBackoffFn (clock : Clock) (config : RetryConfig) :
    Duration → Duration → Int → Option HTTPResponse → Duration :=
  fun _ _ attemptNum resp =>
    let retryAfterDuration := retryAfterDelay clock config resp
    let backoffDuration := config.backoff attemptNum resp
    if retryAfterDuration > backoffDuration then retryAfterDuration
    else backoffDuration

/-! ### Concrete fixtures used by witnesses and counterexamples -/

/-- A clock on which every HTTP-date fails to parse. -/
def clock0 : Clock := { timeUntilHTTPDate := fun _ => none }

/-- A dispatch environment with the real broker-filter hostname, failing
JSON unmarshalling and identity header pass-through. -/
def env0 : DispatchEnv :=
  { brokerFilterHost := "broker-filter.knative-eventing.svc.cluster.local",
    unmarshalErrExtensionInfo := fun _ => none,
    passThroughHeaders := fun h => h }

def urlA : URL := { scheme := "http", host := "example.com", path := "/", rawQuery := "" }

def urlB : URL := { scheme := "http", host := "dls.example.com", path := "/", rawQuery := "" }

def urlC : URL := { scheme := "http", host := "reply.example.com", path := "/", rawQuery := "" }

def addrA : Addressable := { url := some urlA, caCerts := none }

def addrB : Addressable := { url := some urlB, caCerts := none }

def addrC : Addressable := { url := some urlC, caCerts := none }

/-- An addressable with no URL. -/
def addrNil : Addressable := { url := none, caCerts := none }

/-- A sender config with no options applied. -/
def cfg0 : SenderConfig :=
  { reply := none, deadLetterSink := none, additionalHeaders := [], retryConfig := none }

/-- A 429 response carrying a 30-second Retry-After header. -/
def respRA : HTTPResponse :=
  { statusCode := 429, status := "429 Too Many Requests",
    headers := [("Retry-After", "30")], body := "", bodyReadErr := false }

/-- A retry config with a 10-second Retry-After ceiling and a constant
2-second configured backoff. -/
def cfgC3 : RetryConfig :=
  { retryMax := 3, checkRetry := fun _ _ => true,
    backoff := fun _ _ => 2 * timeSecond, requestTimeout := 0,
    retryAfterMaxDuration := some (10 * timeSecond) }

/-- A retry config with no Retry-After ceiling whose backoff function
returns a negative duration. -/
def cfgC4 : RetryConfig :=
  { retryMax := 0, checkRetry := fun _ _ => false, backoff := fun _ _ => -1,
    requestTimeout := 0, retryAfterMaxDuration := none }

/-- A retry config with a zero Retry-After ceiling and a constant
5-second configured backoff. -/
def cfgC4b : RetryConfig :=
  { retryMax := 3, checkRetry := fun _ _ => true,
    backoff := fun _ _ => 5 * timeSecond, requestTimeout := 0,
    retryAfterMaxDuration := some 0 }

/-! ### C9 — URL sanitization -/

/-- C9: sanitizeURL rewrites any non-nil URL whose scheme is neither
http nor https to a URL with scheme http, the original host and path /;
URLs that already have scheme http or https are returned unchanged; a
nil URL sanitizes to nil. -/
theorem claim_C9 (u : URL) :
    (u.scheme ≠ "http" ∧ u.scheme ≠ "https" →
      sanitizeURL (some u) =
        some { scheme := "http", host := u.host, path := "/", rawQuery := "" })
    ∧ (u.scheme = "http" ∨ u.scheme = "https" → sanitizeURL (some u) = some u)
    ∧ sanitizeURL none = none := by
  refine ⟨fun h => ?_, fun h => ?_, rfl⟩
  · simp [sanitizeURL, h.1, h.2]
  · simp [sanitizeURL, h]

/-- Witness for C9 at concrete URLs: a scheme-less host-only URL is
rewritten, an https URL passes through. -/
theorem claim_C9_witness :
    sanitizeURL (some { scheme := "", host := "svc.cluster.local", path := "", rawQuery := "" }) =
      some { scheme := "http", host := "svc.cluster.local", path := "/", rawQuery := "" }
    ∧ sanitizeURL (some { scheme := "https", host := "h", path := "/x", rawQuery := "q" }) =
      some { scheme := "https", host := "h", path := "/x", rawQuery := "q" } :=
  ⟨(claim_C9 _).1 (by decide), (claim_C9 _).2.1 (Or.inr rfl)⟩

/-! ### C3 — Retry-After with a positive ceiling -/

/-- C3 (amended): with a positive Retry-After ceiling, the backoff
duration for an attempt is the larger of the configured backoff and the
Retry-After delay, where the delay is what parseRetryAfterDuration
computes in wrapping int64 nanoseconds; that computed delay is produced
only for 429/503 responses, is clamped to the ceiling when it exceeds
it, and passes through unclamped when it does not. (A header value so
large that its nanosecond conversion wraps escapes the clamp — see the
counterexample.) -/
theorem claim_C3 (clock : Clock) (config : RetryConfig) (m : Duration)
    (hm : config.retryAfterMaxDuration = some m) (hpos : 0 < m)
    (w x : Duration) (n : Int) (resp : Option HTTPResponse) :
    generateBackoffFn clock config w x n resp =
      max (config.backoff n resp) (retryAfterDelay clock config resp)
    ∧ (∀ r, resp = some r → (r.statusCode = 429 ∨ r.statusCode = 503) →
        retryAfterDelay clock config resp =
          if m < parseRetryAfterDuration clock resp then m
          else parseRetryAfterDuration clock resp)
    ∧ (∀ r, resp = some r → ¬(r.statusCode = 429 ∨ r.statusCode = 503) →
        retryAfterDelay clock config resp = 0)
    ∧ (resp = none → retryAfterDelay clock config resp = 0) := by
  refine ⟨?_, ?_, ?_, ?_⟩
  · unfold generateBackoffFn
    rcases le_or_lt (retryAfterDelay clock config resp) (config.backoff n resp) with h | h
    · rw [if_neg (not_lt.mpr h), max_eq_left h]
    · rw [if_pos h, max_eq_right h.le]
  · intro r hr h429
    subst hr
    simp [retryAfterDelay, hm, h429]
  · intro r hr hnot
    subst hr
    simp [retryAfterDelay, hm, hnot]
  · intro hr
    subst hr
    simp [retryAfterDelay, hm]

/-- A 429 response whose Retry-After header requests 2^63 - 1 seconds. -/
def respHugeRA : HTTPResponse :=
  { statusCode := 429, status := "429 Too Many Requests",
    headers := [("Retry-After", "9223372036854775807")], body := "",
    bodyReadErr := false }

/-- C3 as stated is false on the code: a Retry-After value of 2^63 - 1
seconds vastly exceeds the 10-second ceiling, yet it is not clamped to
the ceiling — its conversion to nanoseconds wraps in int64 to -1s,
which is below the ceiling, so the backoff stays at the 2-second
configured value instead of the 10-second ceiling the claim predicts. -/
theorem claim_C3_cex :
    (10 * timeSecond : Int) < 9223372036854775807 * timeSecond
    ∧ parseRetryAfterDuration clock0 (some respHugeRA) = -timeSecond
    ∧ generateBackoffFn clock0 cfgC3 0 0 1 (some respHugeRA) = 2 * timeSecond
    ∧ (2 * timeSecond : Int) ≠ 10 * timeSecond := by
  refine ⟨by norm_num [timeSecond], by decide, by decide, by norm_num [timeSecond]⟩

/-- Witness for C3: a 429 response asking for 30 seconds against a
10-second ceiling and a 2-second configured backoff. -/
theorem claim_C3_witness :
    generateBackoffFn clock0 cfgC3 0 0 1 (some respRA) =
      max (cfgC3.backoff 1 (some respRA)) (retryAfterDelay clock0 cfgC3 (some respRA))
    ∧ retryAfterDelay clock0 cfgC3 (some respRA) =
      (if (10 * timeSecond : Duration) < parseRetryAfterDuration clock0 (some respRA) then
        10 * timeSecond
      else parseRetryAfterDuration clock0 (some respRA)) :=
  ⟨(claim_C3 clock0 cfgC3 (10 * timeSecond) rfl (by norm_num [timeSecond]) 0 0 1
      (some respRA)).1,
   (claim_C3 clock0 cfgC3 (10 * timeSecond) rfl (by norm_num [timeSecond]) 0 0 1
      (some respRA)).2.1 respRA rfl (Or.inl rfl)⟩

/-! ### C4 — Retry-After with a nil or zero ceiling -/

/-- C4 as stated is false on the code: with a nil ceiling (Retry-After
ignored) the returned duration is the maximum of the configured backoff
and zero, so a backoff function returning a negative duration does not
come back as configuredBackoff alone. -/
theorem claim_C4_cex :
    generateBackoffFn clock0 cfgC4 0 0 1 none ≠ cfgC4.backoff 1 none := by decide

/-- C4 (amended): with a nil or zero Retry-After ceiling the Retry-After
contribution is never positive — headers are ignored in that sense even
on 429/503 — and whenever the configured backoff is nonnegative the
backoff duration equals configuredBackoff(n, response) alone; a negative
configured backoff is instead overridden by the nonpositive Retry-After
contribution when that is larger. -/
theorem claim_C4 (clock : Clock) (config : RetryConfig)
    (h : config.retryAfterMaxDuration = none ∨ config.retryAfterMaxDuration = some 0)
    (w x : Duration) (n : Int) (resp : Option HTTPResponse)
    (hb : 0 ≤ config.backoff n resp) :
    retryAfterDelay clock config resp ≤ 0
    ∧ generateBackoffFn clock config w x n resp = config.backoff n resp := by
  have hd : retryAfterDelay clock config resp ≤ 0 := by
    rcases h with h | h
    · simp [retryAfterDelay, h]
    · cases resp with
      | none => simp [retryAfterDelay, h]
      | some r =>
        simp only [retryAfterDelay, h]
        split
        · split
          · exact le_refl 0
          · next hlt => exact le_of_not_lt hlt
        · exact le_refl 0
  exact ⟨hd, by
    unfold generateBackoffFn
    rw [if_neg (not_lt.mpr (hd.trans hb))]⟩

/-- Witness for C4 (amended): zero ceiling, 429 response with a
Retry-After header, 5-second configured backoff. -/
theorem claim_C4_witness :
    retryAfterDelay clock0 cfgC4b (some respRA) ≤ 0
    ∧ generateBackoffFn clock0 cfgC4b 0 0 1 (some respRA) =
      cfgC4b.backoff 1 (some respRA) :=
  claim_C4 clock0 cfgC4b (Or.inr rfl) 0 0 1 (some respRA) (by norm_num [cfgC4b, timeSecond])

/-! ### C6 and C10 — client cache -/

theorem lookup_filter_self {β : Type} (l : List (String × β)) (k : String) :
    (l.filter (fun p => p.1 != k)).lookup k = none := by
  induction l with
  | nil => rfl
  | cons p t ih =>
    obtain ⟨pk, pv⟩ := p
    by_cases hp : pk = k
    · simp only [List.filter, hp, bne_self_eq_false, ih]
    · have hf : (pk != k) = true := by simp [hp]
      have hk : (k == pk) = false := by
        simp only [beq_eq_false_iff_ne, ne_eq]
        exact fun h => hp h.symm
      simp only [List.filter, hf, List.lookup, hk, ih]

/-- C6: CA certificate material that fails to parse makes client
creation fail with an error rather than being silently ignored — lazily
through getClientForAddressable, and eagerly through the upsert handler,
which then leaves the cached clients untouched instead of installing a
client with bad trust material. -/
theorem claim_C6 (sysOk : Bool) (pemOk : String → Bool) (s : ClientsState)
    (a : Addressable) (certs : String) (hc : a.caCerts = some certs)
    (hne : certs ≠ "") (hbad : pemOk certs = false) :
    (∃ e, createNewClient sysOk pemOk s.connectionArgs a = .error e)
    ∧ (s.clients.lookup a.key = none →
        ∃ e, (getClientForAddressable sysOk pemOk s a).1 = .error e)
    ∧ (AddOrUpdateAddressableHandler sysOk pemOk s a).clients = s.clients := by
  have hcerts : (certs != "") = true := by simp [hne]
  have hcr : ∃ e, createNewClient sysOk pemOk s.connectionArgs a = .error e := by
    unfold createNewClient
    rw [hc]
    cases sysOk <;> simp [hcerts, hbad, Except.bind]
  obtain ⟨e, he⟩ := hcr
  refine ⟨⟨e, he⟩, fun hmiss => ?_, ?_⟩
  · unfold getClientForAddressable
    simp only [hmiss, he]
    exact ⟨_, rfl⟩
  · unfold AddOrUpdateAddressableHandler
    simp only [he]

/-- Witness for C6: unparsable PEM material on a fresh cache. -/
theorem claim_C6_witness :
    (∃ e, createNewClient true (fun _ => false) none
      { url := some urlA, caCerts := some "not a pem" } = .error e)
    ∧ (∃ e, (getClientForAddressable true (fun _ => false)
        { clients := [], connectionArgs := none }
        { url := some urlA, caCerts := some "not a pem" }).1 = .error e)
    ∧ (AddOrUpdateAddressableHandler true (fun _ => false)
        { clients := [], connectionArgs := none }
        { url := some urlA, caCerts := some "not a pem" }).clients = [] := by
  have h := claim_C6 true (fun _ => false)
    { clients := [], connectionArgs := none }
    { url := some urlA, caCerts := some "not a pem" } "not a pem" rfl (by decide) rfl
  exact ⟨h.1, h.2.1 rfl, h.2.2⟩

/-- A concrete pooled client. -/
def clientX : HTTPClient := { transport := defaultTransport, tracingWrapped := true }

/-- A cache state holding one entry for urlA's string form. -/
def stC10 : ClientsState :=
  { clients := [(urlA.string, clientX)], connectionArgs := none }

/-- C10 as stated is false on the code: ConfigureConnectionArgs with new
tuning clears the whole cache, so an entry can disappear without the
upsert or delete handler ever running. -/
theorem claim_C10_cex :
    stC10.clients.lookup urlA.string = some clientX
    ∧ (ConfigureConnectionArgs stC10
        (some { maxIdleConns := 10, maxIdleConnsPerHost := 5 })).clients.lookup
        urlA.string = none := by
  constructor <;> rfl

/-- C10 (amended): the client cache is keyed solely by the addressable's
URL string — a cache hit returns the cached client unchanged even when
the addressable's CA certificates differ from those used to build it,
and a lookup never replaces an existing entry; an entry is replaced by
the upsert handler and removed by the delete handler, and additionally
the whole cache is cleared when ConfigureConnectionArgs installs changed
tuning. -/
theorem claim_C10 (sysOk : Bool) (pemOk : String → Bool) (s : ClientsState)
    (a : Addressable) (u : URL) (c : HTTPClient) (hu : a.url = some u)
    (hhit : s.clients.lookup u.string = some c) :
    getClientForAddressable sysOk pemOk s a = (.ok c, s)
    ∧ (∀ k c', s.clients.lookup k = some c' → ∀ a' : Addressable,
        (getClientForAddressable sysOk pemOk s a').2.clients.lookup k = some c')
    ∧ (∀ nc, createNewClient sysOk pemOk s.connectionArgs a = .ok nc →
        (AddOrUpdateAddressableHandler sysOk pemOk s a).clients.lookup a.key = some nc)
    ∧ (DeleteAddressableHandler s a).clients.lookup a.key = none
    ∧ (∀ ca, sameConnectionArgs s.connectionArgs ca = false →
        (ConfigureConnectionArgs s ca).clients = []) := by
  have hkey : a.key = u.string := by simp [Addressable.key, hu, urlString]
  refine ⟨?_, ?_, ?_, ?_, ?_⟩
  · unfold getClientForAddressable
    simp only [hkey, hhit]
  · intro k c' hk a'
    unfold getClientForAddressable
    cases hl : s.clients.lookup a'.key with
    | some cl => simpa only [hl] using hk
    | none =>
      cases hcr : createNewClient sysOk pemOk s.connectionArgs a' with
      | error e => simpa only [hl, hcr] using hk
      | ok nc =>
        have hkne : (k == a'.key) = false := by
          simp only [beq_eq_false_iff_ne, ne_eq]
          intro heq
          rw [heq] at hk
          rw [hk] at hl
          cases hl
        simp only [hl, hcr, List.lookup, hkne]
        exact hk
  · intro nc hcr
    unfold AddOrUpdateAddressableHandler
    simp only [hcr, List.lookup, beq_self_eq_true]
  · unfold DeleteAddressableHandler
    exact lookup_filter_self s.clients a.key
  · intro ca hca
    simp [ConfigureConnectionArgs, hca]

/-- Witness for C10: a cached client for urlA is returned unchanged for
an addressable with the same URL but different CA certificates. -/
theorem claim_C10_witness :
    getClientForAddressable true (fun _ => true) stC10
      { url := some urlA, caCerts := some "different certs" } = (.ok clientX, stC10)
    ∧ (DeleteAddressableHandler stC10
        { url := some urlA, caCerts := some "different certs" }).clients.lookup
        (Addressable.key { url := some urlA, caCerts := some "different certs" }) = none := by
  have h := claim_C10 true (fun _ => true) stC10
    { url := some urlA, caCerts := some "different certs" } urlA clientX rfl rfl
  exact ⟨h.1, h.2.2.2.1⟩

/-! ### C5 and C8 — executeRequest -/

/-- C5 as stated is false on the code: a transport-level send error (no
response received) is recorded with HTTP status 500, not with the -1
sentinel. -/
theorem claim_C5_cex :
    executeRequest2020 env0 (.sendError "connection refused" 5) =
      .ok ⟨none,
        { duration := 5, responseCode := 500, responseHeader := [],
          responseBody := some "dispatch error: connection refused" },
        some "connection refused"⟩
    ∧ (500 : Int) ≠ NoResponse :=
  ⟨rfl, by decide⟩

/-- C5 (amended): the DispatchInfo of executeRequest carries the -1
sentinels for duration and status when the dispatch step never started
(the request could not be built or the client could not be created); a
transport-level send error is recorded with status 500 and a
synthesized dispatch-error body; when a response arrives and its body is
read without a non-EOF error, the body is captured exactly on non-2xx
failure and never on a 2xx response; and when the body read fails with a
non-EOF error, executeRequest panics (it calls Error() on the nil
post-send error) and returns no DispatchInfo at all. Both variants. -/
theorem claim_C5 (env : DispatchEnv) (outcome : RequestOutcome) :
    (∀ e, outcome = .buildError e →
      executeRequest2020 env outcome = .ok ⟨none, initialDispatchInfo, some e⟩
      ∧ executeRequest2023 env outcome = .ok ⟨none, initialDispatchInfo, some e⟩)
    ∧ (∀ e, outcome = .clientError e →
      executeRequest2020 env outcome =
        .ok ⟨none, initialDispatchInfo,
          some ("failed to get http client for addressable: " ++ e)⟩)
    ∧ (∀ e t, outcome = .sendError e t →
      executeRequest2020 env outcome =
        .ok ⟨none,
          { duration := t, responseCode := StatusInternalServerError,
            responseHeader := [],
            responseBody := some ("dispatch error: " ++ e) },
          some e⟩
      ∧ executeRequest2023 env outcome =
        .ok ⟨none,
          { duration := t, responseCode := StatusInternalServerError,
            responseHeader := [],
            responseBody := some ("dispatch error: " ++ e) },
          some e⟩)
    ∧ (∀ r t, outcome = .response r t → isFailure r.statusCode = false →
        r.bodyReadErr = false →
      (∃ m, executeRequest2020 env outcome =
        .ok ⟨m,
          { duration := t, responseCode := r.statusCode,
            responseHeader := env.passThroughHeaders r.headers,
            responseBody := none },
          none⟩)
      ∧ (∃ m, executeRequest2023 env outcome =
        .ok ⟨m,
          { duration := NoDuration, responseCode := r.statusCode,
            responseHeader := env.passThroughHeaders r.headers,
            responseBody := none },
          none⟩))
    ∧ (∀ r t, outcome = .response r t → isFailure r.statusCode = true →
        r.bodyReadErr = false →
      executeRequest2020 env outcome =
        .ok ⟨none,
          { duration := t, responseCode := r.statusCode,
            responseHeader := env.passThroughHeaders r.headers,
            responseBody := some r.body },
          some ("unexpected HTTP response, expected 2xx, got " ++
            toString r.statusCode)⟩
      ∧ executeRequest2023 env outcome =
        .ok ⟨none,
          { duration := NoDuration, responseCode := r.statusCode,
            responseHeader := env.passThroughHeaders r.headers,
            responseBody := some r.body },
          some ("unexpected HTTP response, expected 2xx, got " ++
            toString r.statusCode)⟩)
    ∧ (∀ r t, outcome = .response r t → r.bodyReadErr = true →
      executeRequest2020 env outcome = .error nilErrorPanic
      ∧ executeRequest2023 env outcome = .error nilErrorPanic) := by
  refine ⟨?_, ?_, ?_, ?_, ?_, ?_⟩
  · rintro e rfl
    exact ⟨rfl, rfl⟩
  · rintro e rfl
    rfl
  · rintro e t rfl
    exact ⟨rfl, rfl⟩
  · rintro r t rfl hok hread
    constructor
    · by_cases henc : readEncoding r.headers = .unknown
      · exact ⟨none, by simp [executeRequest2020, hok, hread, henc,
          initialDispatchInfo]⟩
      · exact ⟨some (Msg.fromResponse r.headers r.body),
          by simp [executeRequest2020, hok, hread, henc, initialDispatchInfo]⟩
    · by_cases henc : readEncoding r.headers = .unknown
      · exact ⟨none, by simp [executeRequest2023, hok, hread, henc,
          initialDispatchInfo]⟩
      · exact ⟨some (Msg.fromResponse r.headers r.body),
          by simp [executeRequest2023, hok, hread, henc, initialDispatchInfo]⟩
  · rintro r t rfl hfail hread
    constructor
    · simp [executeRequest2020, hfail, hread, initialDispatchInfo]
    · simp [executeRequest2023, hfail, hread, initialDispatchInfo]
  · rintro r t rfl hread
    constructor
    · by_cases hf : isFailure r.statusCode <;>
        simp [executeRequest2020, hf, hread]
    · by_cases hf : isFailure r.statusCode <;>
        simp [executeRequest2023, hf, hread]

/-- A headerless 200 response. -/
def resp200Empty : HTTPResponse :=
  { statusCode := 200, status := "200 OK", headers := [], body := "ok",
    bodyReadErr := false }

/-- A 200 response whose body read fails with a non-EOF error. -/
def resp200ReadErr : HTTPResponse :=
  { statusCode := 200, status := "200 OK", headers := [], body := "",
    bodyReadErr := true }

/-- Witness for C5 (amended) at a concrete send error, a concrete 2xx
response, and a concrete read-error response. -/
theorem claim_C5_witness :
    (executeRequest2020 env0 (.sendError "boom" 7) =
        .ok ⟨none,
          { duration := 7, responseCode := StatusInternalServerError,
            responseHeader := [],
            responseBody := some ("dispatch error: " ++ "boom") },
          some "boom"⟩
      ∧ executeRequest2023 env0 (.sendError "boom" 7) =
        .ok ⟨none,
          { duration := 7, responseCode := StatusInternalServerError,
            responseHeader := [],
            responseBody := some ("dispatch error: " ++ "boom") },
          some "boom"⟩)
    ∧ ((∃ m, executeRequest2020 env0 (.response resp200Empty 3) =
        .ok ⟨m,
          { duration := 3, responseCode := resp200Empty.statusCode,
            responseHeader := env0.passThroughHeaders resp200Empty.headers,
            responseBody := none },
          none⟩)
      ∧ (∃ m, executeRequest2023 env0 (.response resp200Empty 3) =
        .ok ⟨m,
          { duration := NoDuration, responseCode := resp200Empty.statusCode,
            responseHeader := env0.passThroughHeaders resp200Empty.headers,
            responseBody := none },
          none⟩))
    ∧ (executeRequest2020 env0 (.response resp200ReadErr 3) = .error nilErrorPanic
      ∧ executeRequest2023 env0 (.response resp200ReadErr 3) = .error nilErrorPanic) :=
  ⟨(claim_C5 env0 (.sendError "boom" 7)).2.2.1 "boom" 7 rfl,
   (claim_C5 env0 (.response resp200Empty 3)).2.2.2.1 resp200Empty 3 rfl (by decide)
     (by decide),
   (claim_C5 env0 (.response resp200ReadErr 3)).2.2.2.2.2 resp200ReadErr 3 rfl rfl⟩

/-- A 200 response whose body is not event-encoded. -/
def resp200Plain : HTTPResponse :=
  { statusCode := 200, status := "200 OK",
    headers := [("Content-Type", "text/plain")], body := "hello", bodyReadErr := false }

/-- A sender config carrying a reply target. -/
def cfgReply : SenderConfig :=
  { reply := some addrC, deadLetterSink := none, additionalHeaders := [],
    retryConfig := none }

/-- C8: on a 2xx response whose body was read successfully but does not
decode as a structured event (unknown CloudEvents encoding),
executeRequest returns a nil response message and a nil error, and the
pipeline completes successfully after the single destination hop,
forwarding nothing to the configured reply target (both variants). At
the failing input, a 2xx response whose body read fails with a non-EOF
error, the code instead panics on the nil post-send error before the
decode check runs, so the pipeline crashes rather than completing. -/
theorem claim_C8 (env : DispatchEnv) (net : Nat → RequestOutcome) (message : Msg)
    (destination : Addressable) (config : SenderConfig) (r : HTTPResponse)
    (t : Duration) (u : URL) (rp : Addressable) (hr : net 0 = .response r t)
    (hok : isFailure r.statusCode = false) (hread : r.bodyReadErr = false)
    (henc : readEncoding r.headers = .unknown) (hu : destination.url = some u)
    (hreply : config.reply = some rp) :
    executeRequest2020 env (net 0) =
      .ok ⟨none,
        { duration := t, responseCode := r.statusCode,
          responseHeader := env.passThroughHeaders r.headers,
          responseBody := none },
        none⟩
    ∧ executeRequest2023 env (net 0) =
      .ok ⟨none,
        { duration := NoDuration, responseCode := r.statusCode,
          responseHeader := env.passThroughHeaders r.headers,
          responseBody := none },
        none⟩
    ∧ (send2020 env net message destination config).outcome =
      .returned
        (some
          { duration := t,
            responseCode := r.statusCode,
            responseHeader := env.passThroughHeaders r.headers,
            responseBody := none })
        none
    ∧ (send2020 env net message destination config).trace.length = 1
    ∧ (send2023 env net message destination config).outcome =
      .returned
        (some
          { duration := NoDuration,
            responseCode := r.statusCode,
            responseHeader := env.passThroughHeaders r.headers,
            responseBody := none })
        none
    ∧ (send2023 env net message destination config).trace.length = 1
    ∧ executeRequest2020 env0 (.response resp200ReadErr 3) = .error nilErrorPanic
    ∧ executeRequest2023 env0 (.response resp200ReadErr 3) = .error nilErrorPanic
    ∧ (send2020 env0 (fun _ => .response resp200ReadErr 3) .original addrA
        cfgReply).outcome = .panicked nilErrorPanic
    ∧ (send2023 env0 (fun _ => .response resp200ReadErr 3) .original addrA
        cfgReply).outcome = .panicked nilErrorPanic := by
  have h20 : executeRequest2020 env (net 0) =
      .ok ⟨none,
        { duration := t, responseCode := r.statusCode,
          responseHeader := env.passThroughHeaders r.headers,
          responseBody := none },
        none⟩ := by
    rw [hr]
    simp [executeRequest2020, hok, hread, henc, initialDispatchInfo]
  have h23 : executeRequest2023 env (net 0) =
      .ok ⟨none,
        { duration := NoDuration, responseCode := r.statusCode,
          responseHeader := env.passThroughHeaders r.headers,
          responseBody := none },
        none⟩ := by
    rw [hr]
    simp [executeRequest2023, hok, hread, henc, initialDispatchInfo]
  obtain ⟨u2, hu2⟩ : ∃ u2, sanitizeURL (some u) = some u2 := by
    simp only [sanitizeURL]
    split
    · exact ⟨u, rfl⟩
    · exact ⟨_, rfl⟩
  refine ⟨h20, h23, ?_, ?_, ?_, ?_, rfl, rfl, rfl, rfl⟩
  · simp [send2020, hu, h20, replyStage]
  · simp [send2020, hu, h20, replyStage]
  · simp only [send2023, sanitizeAddressable, hu, hu2]
    simp [h23, replyStage]
  · simp only [send2023, sanitizeAddressable, hu, hu2]
    simp [h23, replyStage]

/-- Witness for C8: a concrete 200 text/plain response with a reply
target configured. -/
theorem claim_C8_witness :
    executeRequest2020 env0 ((fun _ => RequestOutcome.response resp200Plain 3) 0) =
      .ok ⟨none,
        { duration := 3, responseCode := resp200Plain.statusCode,
          responseHeader := env0.passThroughHeaders resp200Plain.headers,
          responseBody := none },
        none⟩
    ∧ (send2020 env0 (fun _ => RequestOutcome.response resp200Plain 3) .original addrA
        cfgReply).outcome =
      .returned
        (some
          { duration := 3,
            responseCode := resp200Plain.statusCode,
            responseHeader := env0.passThroughHeaders resp200Plain.headers,
            responseBody := none })
        none
    ∧ (send2023 env0 (fun _ => RequestOutcome.response resp200Plain 3) .original addrA
        cfgReply).trace.length = 1 := by
  have h := claim_C8 env0 (fun _ => RequestOutcome.response resp200Plain 3) .original
    addrA cfgReply resp200Plain 3 urlA addrC rfl (by decide) (by decide) (by decide)
    rfl rfl
  exact ⟨h.1, h.2.2.1, h.2.2.2.2.2.1⟩

/-! ### C7 — forced Prefer: reply header on the destination hop -/

theorem send2020_trace_head (env : DispatchEnv) (net : Nat → RequestOutcome)
    (message : Msg) (destination : Addressable) (config : SenderConfig) (u : URL)
    (hu : destination.url = some u) :
    (send2020 env net message destination config).trace.head? =
      some { target := sanitizeAddressable destination, message := message,
             headers := hSet config.additionalHeaders "Prefer" "reply",
             retryConfig := config.retryConfig, transformers := none } := by
  simp only [send2020, hu]
  repeat' split
  all_goals rfl

theorem send2023_trace_head (env : DispatchEnv) (net : Nat → RequestOutcome)
    (message : Msg) (destination : Addressable) (config : SenderConfig) (u : URL)
    (hu : destination.url = some u) :
    (send2023 env net message destination config).trace.head? =
      some { target := sanitizeAddressable destination, message := message,
             headers := hSet config.additionalHeaders "Prefer" "reply",
             retryConfig := config.retryConfig, transformers := none } := by
  obtain ⟨u2, hu2⟩ : ∃ u2, sanitizeURL (some u) = some u2 := by
    simp only [sanitizeURL]
    split
    · exact ⟨u, rfl⟩
    · exact ⟨_, rfl⟩
  simp only [send2023, sanitizeAddressable, hu, hu2]
  repeat' split
  all_goals rfl

/-- C7: for every dispatch call with a destination URL set, the request
to the primary destination carries a Prefer: reply header — whether or
not a reply target is configured, the config being arbitrary here — and
every other caller-supplied header is merged onto that request
unchanged. Both variants (the destination hop is recorded even when a
later pipeline step panics). -/
theorem claim_C7 (env : DispatchEnv) (net : Nat → RequestOutcome) (message : Msg)
    (destination : Addressable) (config : SenderConfig) (u : URL)
    (hu : destination.url = some u) :
    ((send2020 env net message destination config).trace.head?.map
        (fun h => h.headers) =
      some (hSet config.additionalHeaders "Prefer" "reply"))
    ∧ ((send2023 env net message destination config).trace.head?.map
        (fun h => h.headers) =
      some (hSet config.additionalHeaders "Prefer" "reply"))
    ∧ hGet (hSet config.additionalHeaders "Prefer" "reply") "Prefer" = "reply"
    ∧ (∀ k, k ≠ "Prefer" →
        hGet (hSet config.additionalHeaders "Prefer" "reply") k =
          hGet config.additionalHeaders k) := by
  refine ⟨?_, ?_, hGet_hSet_self _ _ _, fun k hk => hGet_hSet_ne _ _ _ _ hk⟩
  · rw [send2020_trace_head env net message destination config u hu]
    rfl
  · rw [send2023_trace_head env net message destination config u hu]
    rfl

/-- Witness for C7: a concrete dispatch carrying one caller header. -/
theorem claim_C7_witness :
    ((send2020 env0 (fun _ => RequestOutcome.response resp200Plain 3) .original addrA
        { cfg0 with additionalHeaders := [("X-Custom", "v")] }).trace.head?.map
        (fun h => h.headers) =
      some (hSet [("X-Custom", "v")] "Prefer" "reply"))
    ∧ hGet (hSet [("X-Custom", "v")] "Prefer" "reply") "Prefer" = "reply"
    ∧ hGet (hSet [("X-Custom", "v")] "Prefer" "reply") "X-Custom" =
        hGet [("X-Custom", "v")] "X-Custom" := by
  have h := claim_C7 env0 (fun _ => RequestOutcome.response resp200Plain 3) .original
    addrA { cfg0 with additionalHeaders := [("X-Custom", "v")] } urlA rfl
  exact ⟨h.1, h.2.2.1, h.2.2.2 "X-Custom" (by decide)⟩

/-! ### C1 — nil destination URL -/

/-- C1 as stated is false on the code: the 2023 dispatcher's send does
not fail on a nil destination URL — with no reply configured it returns
a nil error and a nil DispatchInfo, performing no hop at all, instead of
failing. -/
theorem claim_C1_cex :
    (send2023 env0 (fun _ => RequestOutcome.buildError "unused") .original addrNil
      cfg0).outcome = .returned none none
    ∧ (send2023 env0 (fun _ => RequestOutcome.buildError "unused") .original addrNil
        cfg0).trace = [] := by
  constructor <;> rfl

/-- C1 (amended): the 2020 send fails immediately on a nil destination
URL with an error and performs no hop; the 2023 send instead accepts a
nil destination URL without error — it performs no destination or
dead-letter hop, and with no reply target it returns success with no
hop at all, while with a reply target (and no dead-letter sink) it
performs exactly one hop forwarding the original message to the
sanitized reply target. -/
theorem claim_C1 (env : DispatchEnv) (net : Nat → RequestOutcome) (message : Msg)
    (destination : Addressable) (config : SenderConfig)
    (hu : destination.url = none) :
    (send2020 env net message destination config =
      { outcome := .returned (some zeroDispatchInfo)
          (some "can not dispatch message to nil destination.URL"),
        trace := [] })
    ∧ (config.reply = none →
        (send2023 env net message destination config).outcome = .returned none none
        ∧ (send2023 env net message destination config).trace = [])
    ∧ (∀ rp, config.reply = some rp → config.deadLetterSink = none →
        (send2023 env net message destination config).trace.map
          (fun h => (h.target, h.message)) = [(sanitizeAddressable rp, message)]) := by
  refine ⟨?_, fun hr => ?_, fun rp hr hd => ?_⟩
  · simp [send2020, hu]
  · constructor <;>
      simp [send2023, hu, sanitizeAddressable, sanitizeURL, sanitizeAddressableOpt,
        hr, replyStage]
  · simp only [send2023, sanitizeAddressable, hu, sanitizeURL, sanitizeAddressableOpt,
      hr, hd, replyStage]
    repeat' split
    all_goals rfl

/-- Witness for C1 (amended): the 2020 variant fails and the 2023
variant succeeds on a concrete nil-URL dispatch; with a reply target the
2023 variant forwards the original message there. -/
theorem claim_C1_witness :
    (send2020 env0 (fun _ => RequestOutcome.response resp200Plain 3) .original addrNil
        cfg0 =
      { outcome := .returned (some zeroDispatchInfo)
          (some "can not dispatch message to nil destination.URL"),
        trace := [] })
    ∧ (send2023 env0 (fun _ => RequestOutcome.response resp200Plain 3) .original
        addrNil cfg0).outcome = .returned none none
    ∧ (send2023 env0 (fun _ => RequestOutcome.response resp200Plain 3) .original
        addrNil cfgReply).trace.map (fun h => (h.target, h.message)) =
      [(sanitizeAddressable addrC, Msg.original)] := by
  have h1 := claim_C1 env0 (fun _ => RequestOutcome.response resp200Plain 3) .original
    addrNil cfg0 rfl
  have h2 := claim_C1 env0 (fun _ => RequestOutcome.response resp200Plain 3) .original
    addrNil cfgReply rfl
  exact ⟨h1.1, (h1.2.1 rfl).1, h2.2.2 addrC rfl rfl⟩

/-! ### C2 — dead-letter fallback after a destination failure -/

/-- An 800-byte failure response body: its base64 encoding is 1068
bytes, which exceeds the 1024-byte extension cap. -/
def longBody : String := String.mk (List.replicate 800 'a')

/-- A 500 response carrying the 800-byte body, read successfully. -/
def resp500Long : HTTPResponse :=
  { statusCode := 500, status := "500 Internal Server Error", headers := [],
    body := longBody, bodyReadErr := false }

/-- The exchanges of the C2 witness: the destination send fails with a
transport error, every later exchange gets a plain 200. -/
def netC2 : Nat → RequestOutcome :=
  fun k => if k = 0 then .sendError "boom" 7 else .response resp200Plain 3

/-- A sender config carrying a dead-letter sink. -/
def cfgDLS : SenderConfig :=
  { reply := none, deadLetterSink := some addrB, additionalHeaders := [],
    retryConfig := none }

set_option maxRecDepth 100000 in
/-- C2: on every run on which the code's latent crashes do not fire —
the destination attempt returns a failure, the transformer build
returns, and the dead-letter attempt returns — the pipeline resends the
original message (not the destination's failure response) to the
dead-letter sink with the same RetryConfig, augmented by the
transformers built from the destination URL and the failing attempt's
DispatchInfo; a dead-letter failure yields the combined error naming
both failures and a dead-letter success yields a nil error (both
variants). But at the failing input — a destination failure whose
captured body exceeds 768 bytes — the transformer build overruns its
base64 buffer and panics, so the dead-letter resend never happens. -/
theorem claim_C2 (env : DispatchEnv) (net : Nat → RequestOutcome) (message : Msg)
    (destination : Addressable) (config : SenderConfig) (u : URL) (dls : Addressable)
    {r0 r1 r0b r1b : ExecResult} {tf tfb : Option KnativeErrorTransformers}
    {e eb : String}
    (hu : destination.url = some u) (hdls : config.deadLetterSink = some dls)
    (h0 : executeRequest2020 env (net 0) = .ok r0) (he : r0.err = some e)
    (htf : dispatchExecutionInfoTransformers env
      (sanitizeAddressable destination).url r0.info = .ok tf)
    (h1 : executeRequest2020 env (net 1) = .ok r1)
    (h0b : executeRequest2023 env (net 0) = .ok r0b) (heb : r0b.err = some eb)
    (htfb : dispatchExecutionInfoTransformers env
      (sanitizeAddressable destination).url r0b.info = .ok tfb)
    (h1b : executeRequest2023 env (net 1) = .ok r1b) :
    ((send2020 env net message destination config).trace =
      [{ target := sanitizeAddressable destination, message := message,
         headers := hSet config.additionalHeaders "Prefer" "reply",
         retryConfig := config.retryConfig, transformers := none },
       { target := sanitizeAddressable dls, message := message,
         headers := config.additionalHeaders, retryConfig := config.retryConfig,
         transformers := tf }])
    ∧ (r1.err = none →
        (send2020 env net message destination config).outcome =
          .returned (some r1.info) none)
    ∧ (∀ dlErr, r1.err = some dlErr →
        (send2020 env net message destination config).outcome =
          .returned (some r1.info)
            (some (destDLSJointError (sanitizeAddressable destination).url
              (sanitizeAddressable dls).url e dlErr)))
    ∧ ((send2023 env net message destination config).trace =
      [{ target := sanitizeAddressable destination, message := message,
         headers := hSet config.additionalHeaders "Prefer" "reply",
         retryConfig := config.retryConfig, transformers := none },
       { target := sanitizeAddressable dls, message := message,
         headers := config.additionalHeaders, retryConfig := config.retryConfig,
         transformers := tfb }])
    ∧ (r1b.err = none →
        (send2023 env net message destination config).outcome =
          .returned (some r1b.info) none)
    ∧ (∀ dlErr, r1b.err = some dlErr →
        (send2023 env net message destination config).outcome =
          .returned (some r1b.info)
            (some (destDLSJointError (sanitizeAddressable destination).url
              (sanitizeAddressable dls).url eb dlErr)))
    ∧ dispatchExecutionInfoTransformers env0 (some urlA)
        { duration := 5, responseCode := 500, responseHeader := [],
          responseBody := some longBody } = .error encodeRangePanic
    ∧ (send2020 env0 (fun _ => .response resp500Long 5) .original addrA
        cfgDLS).outcome = .panicked encodeRangePanic
    ∧ (send2020 env0 (fun _ => .response resp500Long 5) .original addrA
        cfgDLS).trace.length = 1 := by
  obtain ⟨u2, hu2⟩ : ∃ u2, sanitizeURL (some u) = some u2 := by
    simp only [sanitizeURL]
    split
    · exact ⟨u, rfl⟩
    · exact ⟨_, rfl⟩
  have htfb2 : dispatchExecutionInfoTransformers env (some u2) r0b.info = .ok tfb := by
    simpa only [sanitizeAddressable, hu, hu2] using htfb
  refine ⟨?_, fun h1n => ?_, fun dlErr h1s => ?_, ?_, fun h1n => ?_,
    fun dlErr h1s => ?_, rfl, rfl, rfl⟩
  · simp only [send2020, hu, h0, he, hdls, sanitizeAddressableOpt, htf, h1]
    cases h1e : r1.err <;> rfl
  · simp only [send2020, hu, h0, he, hdls, sanitizeAddressableOpt, htf, h1, h1n]
  · simp only [send2020, hu, h0, he, hdls, sanitizeAddressableOpt, htf, h1, h1s]
  · simp only [send2023, sanitizeAddressable, hu, hu2, h0b, heb, hdls,
      sanitizeAddressableOpt, htfb2, h1b]
    cases h1e : r1b.err <;> rfl
  · simp only [send2023, sanitizeAddressable, hu, hu2, h0b, heb, hdls,
      sanitizeAddressableOpt, htfb2, h1b, h1n]
  · simp only [send2023, sanitizeAddressable, hu, hu2, h0b, heb, hdls,
      sanitizeAddressableOpt, htfb2, h1b, h1s]

/-- Witness for C2: a concrete destination transport failure followed by
a dead-letter 200 makes both variants return overall success, carrying
the dead-letter attempt's DispatchInfo. -/
theorem claim_C2_witness :
    (send2020 env0 netC2 .original addrA cfgDLS).outcome =
      .returned
        (some
          { duration := 3,
            responseCode := 200,
            responseHeader := [("Content-Type", "text/plain")],
            responseBody := none })
        none
    ∧ (send2023 env0 netC2 .original addrA cfgDLS).outcome =
      .returned
        (some
          { duration := NoDuration,
            responseCode := 200,
            responseHeader := [("Content-Type", "text/plain")],
            responseBody := none })
        none := by
  have h := claim_C2 env0 netC2 .original addrA cfgDLS urlA addrB rfl rfl rfl rfl
    rfl rfl rfl rfl rfl rfl
  exact ⟨h.2.1 rfl, h.2.2.2.2.1 rfl⟩

end KnEventing
